import Mathlib

/-!
Verification development for the MCPQ RAG protocol server (`src/server.py`).

The file shallowly embeds the tool-dispatch core of the server:

* `JVal` models the JSON values flowing through the protocol;
* `Point`, `Store` model the vector-store collection `rag_docs` (a point is
  `id`, `vector`, `payload` — spec section 3, "Document Record");
* `storeUpsert` / `storeSearch` model the vector-store collaborator at its
  interface boundary (spec sections 4.4 and 6): upsert is replace-or-insert by
  id; search scores every point with a similarity function, orders hits by
  descending score, and truncates to the requested limit;
* `Env` packages the external collaborators as oracles (the embedding
  provider behind `get_embedding`, the qdrant client calls, the Google
  Drive branches); failures of a collaborator are `Except.error` values,
  modelling a raised Python exception;
* `on_tools_call` is the embedding of the dispatcher at `src/server.py`
  lines 134-208.  It threads the vector-store state, records every outbound
  network call in a `NetEvent` trace, and returns `Except.error e` exactly
  when the Python code would let an exception propagate out of the handler
  (the code contains no try/except).
-/

namespace MCPQ

/-- JSON-like values as passed through the protocol layer. -/
inductive JVal : Type where
  | jnull : JVal
  | jbool : Bool → JVal
  | jint : Int → JVal
  | jnum : ℚ → JVal
  | jstr : String → JVal
  | jarr : List JVal → JVal
  | jobj : List (String × JVal) → JVal

/-- Python `d.get(k, default)` on a JSON-object field list. -/
def dictGetD (d : List (String × JVal)) (k : String) (dflt : JVal) : JVal :=
  match d.lookup k with
  | some v => v
  | none => dflt

/-- Field lookup on an object value; `none` on a missing key or a non-object. -/
def JVal.lookupKey : JVal → String → Option JVal
  | .jobj l, k => l.lookup k
  | _, _ => none

/-- Errors a tool implementation can raise (modelling Python exceptions):
a `KeyError` from `args[...]`, or a failure raised inside a collaborator
(embedding provider, qdrant client, Google Drive service). -/
inductive ToolError : Type where
  | keyError : String → ToolError
  | embedError : String → ToolError
  | storeError : String → ToolError
  | gdriveError : String → ToolError
deriving Repr, DecidableEq

/-- Python `args[k]` for the string-typed tool parameters: raises `KeyError`
when the key is absent (the dispatcher does no schema validation).  All
parameters read by the dispatcher are declared as strings in the tool
schemas; a non-string value is read as the empty string (no claim and no
declared schema exercises that case). -/
def getStrKey (args : List (String × JVal)) (k : String) : Except ToolError String :=
  match args.lookup k with
  | none => .error (.keyError k)
  | some (.jstr s) => .ok s
  | some _ => .ok ""

/-- A point of the qdrant collection `rag_docs`: `src/server.py` lines 174-180
build `PointStruct(id=doc_id, vector=emb, payload=\x7b"text": text\x7d)`. -/
structure Point : Type where
  id : String
  vector : List ℚ
  payload : List (String × JVal)

/-- The state of the vector-store collection. -/
abbrev Store := List Point

/-- Vector-store upsert, modelled at its interface boundary (spec section
4.4): replace-or-insert by id — any existing point with the same id is
removed and the new point stored.  Idempotent by id, never a duplicate. -/
def storeUpsert (st : Store) (p : Point) : Store :=
  st.filter (fun q => !(q.id == p.id)) ++ [p]

/-- A search hit as produced by the vector store: id, similarity score,
stored payload (spec section 3, "Search Hit"). -/
structure Hit : Type where
  id : String
  score : ℚ
  payload : List (String × JVal)

/-- Insert a hit into a list that is sorted by descending score, keeping it
sorted. -/
def insertDesc (h : Hit) : List Hit → List Hit
  | [] => [h]
  | x :: xs => if x.score ≤ h.score then h :: x :: xs else x :: insertDesc h xs

/-- Sort hits by descending score (insertion sort). -/
def sortDesc : List Hit → List Hit
  | [] => []
  | h :: t => insertDesc h (sortDesc t)

/-- Vector-store similarity search, modelled at its interface boundary (spec
section 4.4): every stored point is scored against the query vector by the
store's similarity function, hits are ordered by descending score, and at
most `limit` hits are returned. -/
def storeSearch (sim : List ℚ → List ℚ → ℚ) (st : Store) (qv : List ℚ)
    (limit : Nat) : List Hit :=
  (sortDesc (st.map (fun p => ⟨p.id, sim qv p.vector, p.payload⟩))).take limit

/-- Cosine-style similarity used to instantiate the store in concrete runs
(a dot product; any similarity function works for the store model). -/
def dotSim (a b : List ℚ) : ℚ := (List.zipWith (fun x y => x * y) a b).sum

/-- Process configuration, read from the environment at startup
(`src/server.py` lines 24-29).  `GDRIVE_FOLDER_ID`, `QDRANT_URL` and
`QDRANT_API_KEY` default to the empty string when unset;
`GOOGLE_SERVICE_ACCOUNT_JSON` defaults to Python `None`;
`OPENAI_API_KEY` is mandatory (`os.environ[...]`). -/
structure Config : Type where
  gdriveFolderId : String
  googleCredsJson : Option String
  qdrantUrl : String
  qdrantApiKey : String
  openaiApiKey : String
deriving Repr, DecidableEq

/-- The fixed collection name (`src/server.py` line 28). -/
def QDRANT_COLLECTION : String := "rag_docs"

/-- Outbound network calls issued by the dispatcher, recorded as a trace:
the embedding-provider POST inside `get_embedding`, the qdrant upsert and
search calls, and the Google Drive service calls. -/
inductive NetEvent : Type where
  | embedCall : String → NetEvent
  | upsertCall : String → NetEvent
  | searchCall : Nat → NetEvent
  | gdriveCall : NetEvent
deriving Repr, DecidableEq

/-- The external collaborators, as oracles.

* `embed` models `get_embedding` (lines 67-75): the POST to the embedding
  provider, returning the embedding vector or raising.
* `upsertOp` models the remote `qdrant.upsert` call (lines 172-181): it
  yields the collection state after the call together with `some e` when the
  call raised `e`.  A well-behaved store satisfies `Env.upsertNormal`.
* `searchOp` models the remote `qdrant.search` call (lines 187-191).
* `gdriveSearchOp` and `gdriveReadOp` model the whole Google Drive branches
  (lines 139-166: service construction from the credentials JSON, the files
  query against the configured folder, download and text extraction) as
  single oracles producing the value those branches return; they are out of
  the spec's core and no claim depends on their internals. -/
structure Env : Type where
  embed : String → Except ToolError (List ℚ)
  upsertOp : Store → Point → Store × Option ToolError
  searchOp : Store → List ℚ → Nat → Except ToolError (List Hit)
  gdriveSearchOp : Option String → String → String → Except ToolError JVal
  gdriveReadOp : Option String → String → Except ToolError JVal

/-- The qdrant upsert behaves normally: it performs the replace-or-insert
and raises nothing. -/
def Env.upsertNormal (env : Env) : Prop :=
  ∀ st p, env.upsertOp st p = (storeUpsert st p, none)

/-- The qdrant search behaves normally for similarity function `sim`. -/
def Env.searchNormal (env : Env) (sim : List ℚ → List ℚ → ℚ) : Prop :=
  ∀ st v k, env.searchOp st v k = .ok (storeSearch sim st v k)

/-- The remote upsert is atomic: when the call raises, the collection state
is unchanged (spec section 5: "upsert is a single atomic remote call"). -/
def Env.upsertAtomic (env : Env) : Prop :=
  ∀ st p e, (env.upsertOp st p).2 = some e → (env.upsertOp st p).1 = st

/-- When the remote upsert does not raise, it performed the
replace-or-insert. -/
def Env.upsertClean (env : Env) : Prop :=
  ∀ st p, (env.upsertOp st p).2 = none → (env.upsertOp st p).1 = storeUpsert st p

/-- A hit rendered into a result entry, embedding line 194-197 of
`src/server.py`: `\x7b"score": h.score, "text": h.payload.get("text", "")\x7d`. -/
def hitToResult (h : Hit) : JVal :=
  .jobj [("score", .jnum h.score), ("text", dictGetD h.payload "text" (.jstr ""))]

/-- A tool descriptor of the static registry: name, description, declared
properties (name, primitive type) and required parameter names. -/
structure ToolDescriptor : Type where
  name : String
  description : String
  properties : List (String × String)
  required : List String
deriving Repr, DecidableEq

/-- The static tool registry returned by the `tools/list` handler
(`src/server.py` lines 87-131), verbatim. -/
def on_tools_list : List ToolDescriptor :=
  [ ⟨"gdrive_search", "Search files in Google Drive folder",
      [("query", "string")], ["query"]⟩,
    ⟨"gdrive_read", "Read & extract text from Google Drive file",
      [("file_id", "string")], ["file_id"]⟩,
    ⟨"rag_upsert", "Add document text to Qdrant RAG",
      [("doc_id", "string"), ("text", "string")], ["doc_id", "text"]⟩,
    ⟨"rag_search", "Search Qdrant RAG",
      [("query", "string")], ["query"]⟩ ]

/-- The `tools/call` dispatcher, embedding `src/server.py` lines 134-208.

Returns the vector-store state after the call, the trace of outbound
network calls issued, and either the dict the handler returns (`Except.ok`)
or the exception the Python code would let propagate (`Except.error` — the
handler body contains no try/except, so every collaborator failure and
`KeyError` escapes the handler).  The unknown-tool fallthrough (lines
202-208) returns the error object `\x7b"error": \x7b"code": -1,
"message": "Unknown tool: ..."\x7d\x7d` as a normal result. -/
def on_tools_call (cfg : Config) (env : Env) (st : Store)
    (tool : String) (args : List (String × JVal)) :
    Store × List NetEvent × Except ToolError JVal :=
  if tool = "gdrive_search" then
    match getStrKey args "query" with
    | .error e => (st, [], .error e)
    | .ok query =>
      match env.gdriveSearchOp cfg.googleCredsJson cfg.gdriveFolderId query with
      | .error e => (st, [.gdriveCall], .error e)
      | .ok v => (st, [.gdriveCall], .ok v)
  else if tool = "gdrive_read" then
    match getStrKey args "file_id" with
    | .error e => (st, [], .error e)
    | .ok fid =>
      match env.gdriveReadOp cfg.googleCredsJson fid with
      | .error e => (st, [.gdriveCall], .error e)
      | .ok v => (st, [.gdriveCall], .ok v)
  else if tool = "rag_upsert" then
    match getStrKey args "doc_id" with
    | .error e => (st, [], .error e)
    | .ok doc_id =>
      match getStrKey args "text" with
      | .error e => (st, [], .error e)
      | .ok text =>
        match env.embed text with
        | .error e => (st, [.embedCall text], .error e)
        | .ok emb =>
          match env.upsertOp st ⟨doc_id, emb, [("text", .jstr text)]⟩ with
          | (st', some e) => (st', [.embedCall text, .upsertCall doc_id], .error e)
          | (st', none) =>
            (st', [.embedCall text, .upsertCall doc_id],
              .ok (.jobj [("status", .jstr "ok")]))
  else if tool = "rag_search" then
    match getStrKey args "query" with
    | .error e => (st, [], .error e)
    | .ok query =>
      match env.embed query with
      | .error e => (st, [.embedCall query], .error e)
      | .ok emb =>
        match env.searchOp st emb 5 with
        | .error e => (st, [.embedCall query, .searchCall 5], .error e)
        | .ok hits =>
          (st, [.embedCall query, .searchCall 5],
            .ok (.jobj [("results", .jarr (hits.map hitToResult))]))
  else
    (st, [], .ok (.jobj [("error", .jobj
      [("code", .jint (-1)),
       ("message", .jstr ("Unknown tool: " ++ tool))])]))

/-- A configuration with the vector-store credential and endpoint unset
(`QDRANT_URL` and `QDRANT_API_KEY` default to the empty string). -/
def cfg0 : Config := ⟨"", none, "", "", "sk-test"⟩

/-- A concrete well-behaved environment: the embedding provider answers
every input with the vector `[1]`, the vector store behaves normally with
the dot-product similarity, the Google Drive service is unreachable. -/
def envGood : Env :=
  ⟨fun _ => .ok [1],
   fun st p => (storeUpsert st p, none),
   fun st v k => .ok (storeSearch dotSim st v k),
   fun _ _ _ => .error (.gdriveError "offline"),
   fun _ _ => .error (.gdriveError "offline")⟩

/-- A concrete environment whose embedding provider raises on every call. -/
def envEmbedFail : Env :=
  ⟨fun _ => .error (.embedError "boom"),
   fun st p => (storeUpsert st p, none),
   fun st v k => .ok (storeSearch dotSim st v k),
   fun _ _ _ => .error (.gdriveError "offline"),
   fun _ _ => .error (.gdriveError "offline")⟩


theorem mem_insertDesc (a h : Hit) (l : List Hit) :
    a ∈ insertDesc h l ↔ a = h ∨ a ∈ l := by
  induction l with
  | nil => simp [insertDesc]
  | cons x xs ih =>
      by_cases hc : x.score ≤ h.score
      · simp [insertDesc, hc]
      · simp [insertDesc, hc, ih]
        tauto

theorem insertDesc_pairwise (h : Hit) (l : List Hit)
    (hl : l.Pairwise (fun a b => b.score ≤ a.score)) :
    (insertDesc h l).Pairwise (fun a b => b.score ≤ a.score) := by
  induction l with
  | nil => simp [insertDesc]
  | cons x xs ih =>
      rcases List.pairwise_cons.mp hl with ⟨hx, hxs⟩
      by_cases hc : x.score ≤ h.score
      · have he : insertDesc h (x :: xs) = h :: x :: xs := by simp [insertDesc, hc]
        rw [he]
        refine List.pairwise_cons.mpr ⟨?_, hl⟩
        intro b hb
        rcases List.mem_cons.mp hb with hb | hb
        · exact hb ▸ hc
        · exact le_trans (hx b hb) hc
      · have he : insertDesc h (x :: xs) = x :: insertDesc h xs := by
          simp [insertDesc, hc]
        rw [he]
        refine List.pairwise_cons.mpr ⟨?_, ih hxs⟩
        intro b hb
        rcases (mem_insertDesc b h xs).mp hb with hb | hb
        · exact hb ▸ le_of_lt (lt_of_not_le hc)
        · exact hx b hb

theorem sortDesc_pairwise (l : List Hit) :
    (sortDesc l).Pairwise (fun a b => b.score ≤ a.score) := by
  induction l with
  | nil => simp [sortDesc]
  | cons x xs ih => exact insertDesc_pairwise x (sortDesc xs) ih

theorem storeSearch_length_le (sim : List ℚ → List ℚ → ℚ) (st : Store)
    (v : List ℚ) (k : Nat) : (storeSearch sim st v k).length ≤ k := by
  simp [storeSearch]

theorem storeSearch_sorted (sim : List ℚ → List ℚ → ℚ) (st : Store)
    (v : List ℚ) (k : Nat) :
    (storeSearch sim st v k).Pairwise (fun a b => b.score ≤ a.score) :=
  (sortDesc_pairwise _).sublist (List.take_sublist _ _)

theorem storeUpsert_filter_self (st : Store) (p : Point) :
    (storeUpsert st p).filter (fun q => q.id == p.id) = [p] := by
  simp [storeUpsert, List.filter_append, List.filter_filter]


theorem on_tools_call_rag_upsert (cfg : Config) (env : Env) (st : Store)
    (args : List (String × JVal)) :
    on_tools_call cfg env st "rag_upsert" args =
      match getStrKey args "doc_id" with
      | .error e => (st, [], .error e)
      | .ok doc_id =>
        match getStrKey args "text" with
        | .error e => (st, [], .error e)
        | .ok text =>
          match env.embed text with
          | .error e => (st, [.embedCall text], .error e)
          | .ok emb =>
            match env.upsertOp st ⟨doc_id, emb, [("text", .jstr text)]⟩ with
            | (st', some e) => (st', [.embedCall text, .upsertCall doc_id], .error e)
            | (st', none) =>
              (st', [.embedCall text, .upsertCall doc_id],
                .ok (.jobj [("status", .jstr "ok")])) := rfl

theorem on_tools_call_rag_search (cfg : Config) (env : Env) (st : Store)
    (args : List (String × JVal)) :
    on_tools_call cfg env st "rag_search" args =
      match getStrKey args "query" with
      | .error e => (st, [], .error e)
      | .ok query =>
        match env.embed query with
        | .error e => (st, [.embedCall query], .error e)
        | .ok emb =>
          match env.searchOp st emb 5 with
          | .error e => (st, [.embedCall query, .searchCall 5], .error e)
          | .ok hits =>
            (st, [.embedCall query, .searchCall 5],
              .ok (.jobj [("results", .jarr (hits.map hitToResult))])) := rfl

/-- C1 (counterexample): with an embedding provider that raises, a
`rag_upsert` call lets the exception escape the dispatcher as a raised
error instead of converting it into a result payload. -/
theorem C1_counterexample :
    (on_tools_call cfg0 envEmbedFail [] "rag_upsert"
        [("doc_id", .jstr "d1"), ("text", .jstr "hello")]).2.2
      = .error (.embedError "boom") := rfl

/-- C1 (amended): the dispatcher contains no try/except — a failure of the
embedding provider propagates out of both `rag_upsert` and `rag_search`
as a raised exception. -/
theorem C1_exceptions_propagate (cfg : Config) (env : Env) (st : Store)
    (d t q : String) (e : ToolError)
    (hemb : ∀ s, env.embed s = .error e) :
    (on_tools_call cfg env st "rag_upsert"
        [("doc_id", .jstr d), ("text", .jstr t)]).2.2 = .error e ∧
    (on_tools_call cfg env st "rag_search" [("query", .jstr q)]).2.2 = .error e := by
  constructor <;> simp [on_tools_call, getStrKey, List.lookup, hemb]

/-- Witness for C1. -/
theorem C1_witness :
    (on_tools_call cfg0 envEmbedFail [] "rag_upsert"
        [("doc_id", .jstr "d"), ("text", .jstr "hello")]).2.2
      = .error (.embedError "boom") ∧
    (on_tools_call cfg0 envEmbedFail [] "rag_search"
        [("query", .jstr "q")]).2.2 = .error (.embedError "boom") :=
  C1_exceptions_propagate cfg0 envEmbedFail [] "d" "hello" "q"
    (ToolError.embedError "boom") (fun _ => rfl)

/-- C2 (counterexample): with the vector-store configuration unset
(`cfg0` has `QDRANT_URL` and `QDRANT_API_KEY` empty), `rag_search` and
`rag_upsert` still issue their network calls (embedding POST, then the
qdrant call) and return ordinary results, not an error text that
references the missing configuration. -/
theorem C2_counterexample :
    (on_tools_call cfg0 envGood [] "rag_search" [("query", .jstr "q")]).2.1
      = [.embedCall "q", .searchCall 5] ∧
    (on_tools_call cfg0 envGood [] "rag_search" [("query", .jstr "q")]).2.2
      = .ok (.jobj [("results", .jarr [])]) ∧
    (on_tools_call cfg0 envGood [] "rag_upsert"
        [("doc_id", .jstr "d1"), ("text", .jstr "t")]).2.1
      = [.embedCall "t", .upsertCall "d1"] ∧
    (on_tools_call cfg0 envGood [] "rag_upsert"
        [("doc_id", .jstr "d1"), ("text", .jstr "t")]).2.2
      = .ok (.jobj [("status", .jstr "ok")]) :=
  ⟨rfl, rfl, rfl, rfl⟩

/-- C2 (amended): the dispatcher performs no configuration check at all —
the rag tools behave identically under every configuration, and the first
outbound action of a well-formed call is always the embedding POST. -/
theorem C2_no_config_check (cfg cfg' : Config) (env : Env) (st : Store)
    (args : List (String × JVal)) (d t q : String) :
    on_tools_call cfg env st "rag_upsert" args
      = on_tools_call cfg' env st "rag_upsert" args ∧
    on_tools_call cfg env st "rag_search" args
      = on_tools_call cfg' env st "rag_search" args ∧
    ((on_tools_call cfg env st "rag_upsert"
        [("doc_id", .jstr d), ("text", .jstr t)]).2.1).head?
      = some (.embedCall t) ∧
    ((on_tools_call cfg env st "rag_search" [("query", .jstr q)]).2.1).head?
      = some (.embedCall q) := by
  refine ⟨rfl, rfl, ?_, ?_⟩
  · cases he : env.embed t with
    | error e => simp [on_tools_call, getStrKey, List.lookup, he]
    | ok v =>
        rcases hu : env.upsertOp st ⟨d, v, [("text", .jstr t)]⟩ with ⟨st', e?⟩
        cases e? <;> simp [on_tools_call, getStrKey, List.lookup, he, hu]
  · cases he : env.embed q with
    | error e => simp [on_tools_call, getStrKey, List.lookup, he]
    | ok v =>
        cases hs : env.searchOp st v 5 <;> simp [on_tools_call, getStrKey, List.lookup, he, hs]

/-- C4 (counterexample): a successful `rag_upsert` returns the dict
`\x7b"status": "ok"\x7d`, which carries no `content` field at all, so the
value handed to the protocol layer is not the uniform
`\x7bcontent: [\x7btype, text\x7d]\x7d` envelope. -/
theorem C4_counterexample :
    (on_tools_call cfg0 envGood [] "rag_upsert"
        [("doc_id", .jstr "d1"), ("text", .jstr "hello")]).2.2
      = .ok (.jobj [("status", .jstr "ok")]) ∧
    (JVal.jobj [("status", .jstr "ok")]).lookupKey "content" = none :=
  ⟨rfl, rfl⟩

/-- C4 (amended): every successfully dispatched rag call returns a
tool-specific payload, never the uniform content envelope: `rag_upsert`
yields exactly `\x7b"status": "ok"\x7d` and `rag_search` yields an object whose
only key is `results`; neither has a `content` field. -/
theorem C4_tool_specific_results (cfg : Config) (env : Env) (st : Store)
    (args : List (String × JVal)) (v : JVal) :
    ((on_tools_call cfg env st "rag_upsert" args).2.2 = .ok v →
      v = .jobj [("status", .jstr "ok")] ∧ v.lookupKey "content" = none) ∧
    ((on_tools_call cfg env st "rag_search" args).2.2 = .ok v →
      v.lookupKey "content" = none ∧
      ∃ l, v = .jobj [("results", .jarr l)]) := by
  constructor
  · intro hv
    rw [on_tools_call_rag_upsert] at hv
    split at hv
    · simp at hv
    · split at hv
      · simp at hv
      · split at hv
        · simp at hv
        · split at hv
          · simp at hv
          · simp at hv
            subst hv
            exact ⟨rfl, rfl⟩
  · intro hv
    rw [on_tools_call_rag_search] at hv
    split at hv
    · simp at hv
    · split at hv
      · simp at hv
      · split at hv
        · simp at hv
        · simp at hv
          subst hv
          exact ⟨rfl, _, rfl⟩

/-- Witness for C4. -/
theorem C4_witness :
    JVal.jobj [("status", JVal.jstr "ok")]
        = .jobj [("status", .jstr "ok")] ∧
    (JVal.jobj [("status", JVal.jstr "ok")]).lookupKey "content" = none :=
  (C4_tool_specific_results cfg0 envGood []
    [("doc_id", .jstr "d1"), ("text", .jstr "hello")]
    (JVal.jobj [("status", JVal.jstr "ok")])).1 rfl

/-- C6 (confirmed): a call whose tool name is not in the registry returns
the distinct error object naming the offending tool, leaves the store
untouched, and a subsequent valid `rag_upsert` call succeeds. -/
theorem C6_unknown_tool (cfg : Config) (env : Env) (st : Store)
    (tool : String) (args : List (String × JVal)) (d t : String) (v : List ℚ)
    (htool : tool ∉ on_tools_list.map ToolDescriptor.name)
    (hup : env.upsertNormal) (he : env.embed t = .ok v) :
    on_tools_call cfg env st tool args
      = (st, [], .ok (.jobj [("error", .jobj
          [("code", .jint (-1)),
           ("message", .jstr ("Unknown tool: " ++ tool))])])) ∧
    (on_tools_call cfg env st "rag_upsert"
        [("doc_id", .jstr d), ("text", .jstr t)]).2.2
      = .ok (.jobj [("status", .jstr "ok")]) := by
  simp only [on_tools_list, List.map_cons, List.map_nil, List.mem_cons,
    List.not_mem_nil, or_false] at htool
  push_neg at htool
  obtain ⟨h1, h2, h3, h4⟩ := htool
  have hup' := hup st ⟨d, v, [("text", .jstr t)]⟩
  constructor
  · simp [on_tools_call, h1, h2, h3, h4]
  · simp [on_tools_call, getStrKey, List.lookup, he, hup']

/-- Witness for C6. -/
theorem C6_witness :
    on_tools_call cfg0 envGood [] "does_not_exist" []
      = ([], [], .ok (.jobj [("error", .jobj
          [("code", .jint (-1)),
           ("message", .jstr ("Unknown tool: " ++ "does_not_exist"))])])) ∧
    (on_tools_call cfg0 envGood [] "rag_upsert"
        [("doc_id", .jstr "d1"), ("text", .jstr "t")]).2.2
      = .ok (.jobj [("status", .jstr "ok")]) :=
  C6_unknown_tool cfg0 envGood [] "does_not_exist" [] "d1" "t" [1]
    (by decide) (fun _ _ => rfl) rfl


/-- C3 (counterexample): after storing "d1" with the text
"the quick brown fox" (well-behaved collaborators), a search returns the
single hit with the stored text — but the result entry holds only `score`
and `text`; it carries no `id` field, so no hit with `id == "d1"` is
returned. -/
theorem C3_counterexample :
    (on_tools_call cfg0 envGood
        ((on_tools_call cfg0 envGood [] "rag_upsert"
            [("doc_id", .jstr "d1"), ("text", .jstr "the quick brown fox")]).1)
        "rag_search" [("query", .jstr "quick fox")]).2.2
      = .ok (.jobj [("results", .jarr
          [ .jobj [("score", .jnum 1), ("text", .jstr "the quick brown fox")] ])]) ∧
    (JVal.jobj [("score", .jnum 1),
        ("text", .jstr "the quick brown fox")]).lookupKey "id" = none := by
  constructor
  · norm_num [on_tools_call, envGood, getStrKey, storeSearch, sortDesc, insertDesc,
      hitToResult, dictGetD, storeUpsert, dotSim]
    rfl
  · rfl

/-- C3 (amended): with well-behaved collaborators, storing "d1" with text
`t` into an empty collection and then searching returns exactly one result
entry, whose `text` equals the stored text (and whose score is the store's
similarity of the two embeddings); the entry has no id field. -/
theorem C3_round_trip (cfg : Config) (env : Env)
    (sim : List ℚ → List ℚ → ℚ) (t q : String) (v w : List ℚ)
    (hup : env.upsertNormal) (hse : env.searchNormal sim)
    (het : env.embed t = .ok v) (heq : env.embed q = .ok w) :
    (on_tools_call cfg env
        ((on_tools_call cfg env [] "rag_upsert"
            [("doc_id", .jstr "d1"), ("text", .jstr t)]).1)
        "rag_search" [("query", .jstr q)]).2.2
      = .ok (.jobj [("results", .jarr
          [ .jobj [("score", .jnum (sim w v)), ("text", .jstr t)] ])]) := by
  have hup' := hup [] ⟨"d1", v, [("text", .jstr t)]⟩
  have hse' := hse [⟨"d1", v, [("text", .jstr t)]⟩] w 5
  simp [on_tools_call, getStrKey, List.lookup, het, heq, hup', hse',
    storeUpsert, storeSearch, sortDesc, insertDesc, hitToResult, dictGetD]

/-- Witness for C3. -/
theorem C3_witness :
    (on_tools_call cfg0 envGood
        ((on_tools_call cfg0 envGood [] "rag_upsert"
            [("doc_id", .jstr "d1"), ("text", .jstr "a document")]).1)
        "rag_search" [("query", .jstr "some query")]).2.2
      = .ok (.jobj [("results", .jarr
          [ .jobj [("score", .jnum 1), ("text", .jstr "a document")] ])]) := by
  have h := C3_round_trip cfg0 envGood dotSim "a document" "some query" [1] [1]
    (fun _ _ => rfl) (fun _ _ _ => rfl) rfl rfl
  norm_num [dotSim] at h
  exact h

/-- C5 (confirmed): storing the same id twice (well-behaved store) leaves
exactly one record under that id, holding the latest payload. -/
theorem C5_upsert_idempotent (cfg : Config) (env : Env) (st : Store)
    (d t1 t2 : String) (v1 v2 : List ℚ)
    (hup : env.upsertNormal)
    (he1 : env.embed t1 = .ok v1) (he2 : env.embed t2 = .ok v2) :
    ((on_tools_call cfg env
        ((on_tools_call cfg env st "rag_upsert"
            [("doc_id", .jstr d), ("text", .jstr t1)]).1)
        "rag_upsert" [("doc_id", .jstr d), ("text", .jstr t2)]).1).filter
        (fun p => p.id == d)
      = [⟨d, v2, [("text", .jstr t2)]⟩] := by
  have h1 := hup st ⟨d, v1, [("text", .jstr t1)]⟩
  have h2 := hup (storeUpsert st ⟨d, v1, [("text", .jstr t1)]⟩)
    ⟨d, v2, [("text", .jstr t2)]⟩
  simp only [on_tools_call_rag_upsert, getStrKey, List.lookup]
  simp [he1, he2, h1, h2]
  have h3 := storeUpsert_filter_self
    (storeUpsert st ⟨d, v1, [("text", .jstr t1)]⟩) ⟨d, v2, [("text", .jstr t2)]⟩
  simpa using h3

/-- Witness for C5. -/
theorem C5_witness :
    ((on_tools_call cfg0 envGood
        ((on_tools_call cfg0 envGood [] "rag_upsert"
            [("doc_id", .jstr "d"), ("text", .jstr "t1")]).1)
        "rag_upsert" [("doc_id", .jstr "d"), ("text", .jstr "t2")]).1).filter
        (fun p => p.id == "d")
      = [⟨"d", [1], [("text", .jstr "t2")]⟩] :=
  C5_upsert_idempotent cfg0 envGood [] "d" "t1" "t2" [1] [1]
    (fun _ _ => rfl) rfl rfl

/-- C7 (counterexample): on a two-document corpus, `rag_search` called with
`top_k = 1` still returns two hits (the handler reads no `top_k` argument
and always passes `limit=5`), and the registry's `rag_search` schema
declares only a `query` property. -/
theorem C7_counterexample :
    (on_tools_call cfg0 envGood
        [⟨"a", [1], [("text", .jstr "ta")]⟩, ⟨"b", [2], [("text", .jstr "tb")]⟩]
        "rag_search" [("query", .jstr "q"), ("top_k", .jint 1)]).2.2
      = .ok (.jobj [("results", .jarr
          [ .jobj [("score", .jnum 2), ("text", .jstr "tb")],
            .jobj [("score", .jnum 1), ("text", .jstr "ta")] ])]) ∧
    ((on_tools_list.filter (fun x => x.name == "rag_search")).map
        ToolDescriptor.properties) = [[("query", "string")]] := by
  constructor
  · norm_num [on_tools_call, envGood, getStrKey, storeSearch, sortDesc, insertDesc,
      hitToResult, dictGetD, dotSim]
    rfl
  · rfl

/-- C7 (amended): the `rag_search` schema declares only `query`; a supplied
`top_k` argument is ignored (the call behaves exactly as without it) and
the limit is fixed at 5: the handler returns the store's hits, at most 5 of
them, ordered by descending score. -/
theorem C7_search_fixed_limit (cfg : Config) (env : Env) (st : Store)
    (q : String) (k : JVal) (extra : List (String × JVal))
    (sim : List ℚ → List ℚ → ℚ) (v : List ℚ)
    (hse : env.searchNormal sim) (he : env.embed q = .ok v) :
    on_tools_call cfg env st "rag_search"
        (("query", .jstr q) :: ("top_k", k) :: extra)
      = on_tools_call cfg env st "rag_search" (("query", .jstr q) :: extra) ∧
    (on_tools_call cfg env st "rag_search" (("query", .jstr q) :: extra)).2.2
      = .ok (.jobj [("results", .jarr ((storeSearch sim st v 5).map hitToResult))]) ∧
    (storeSearch sim st v 5).length ≤ 5 ∧
    (storeSearch sim st v 5).Pairwise (fun a b => b.score ≤ a.score) := by
  have hse' := hse st v 5
  refine ⟨?_, ?_, storeSearch_length_le sim st v 5, storeSearch_sorted sim st v 5⟩
  · simp [on_tools_call, getStrKey, List.lookup]
  · simp [on_tools_call, getStrKey, List.lookup, he, hse']

/-- Witness for C7. -/
theorem C7_witness :
    on_tools_call cfg0 envGood
        [⟨"a", [1], [("text", .jstr "ta")]⟩, ⟨"b", [2], [("text", .jstr "tb")]⟩]
        "rag_search" (("query", .jstr "q") :: ("top_k", .jint 1) :: [])
      = on_tools_call cfg0 envGood
        [⟨"a", [1], [("text", .jstr "ta")]⟩, ⟨"b", [2], [("text", .jstr "tb")]⟩]
        "rag_search" (("query", .jstr "q") :: []) ∧
    (on_tools_call cfg0 envGood
        [⟨"a", [1], [("text", .jstr "ta")]⟩, ⟨"b", [2], [("text", .jstr "tb")]⟩]
        "rag_search" (("query", .jstr "q") :: [])).2.2
      = .ok (.jobj [("results", .jarr
          ((storeSearch dotSim
              [⟨"a", [1], [("text", .jstr "ta")]⟩, ⟨"b", [2], [("text", .jstr "tb")]⟩]
              [1] 5).map hitToResult))]) ∧
    (storeSearch dotSim
        [⟨"a", [1], [("text", .jstr "ta")]⟩, ⟨"b", [2], [("text", .jstr "tb")]⟩]
        [1] 5).length ≤ 5 ∧
    (storeSearch dotSim
        [⟨"a", [1], [("text", .jstr "ta")]⟩, ⟨"b", [2], [("text", .jstr "tb")]⟩]
        [1] 5).Pairwise (fun a b => b.score ≤ a.score) :=
  C7_search_fixed_limit cfg0 envGood
    [⟨"a", [1], [("text", .jstr "ta")]⟩, ⟨"b", [2], [("text", .jstr "tb")]⟩]
    "q" (.jint 1) [] dotSim [1] (fun _ _ _ => rfl) rfl

/-- C8 (confirmed): the embed-then-upsert chain is atomic.  If the call
raises anywhere (missing argument, embedding failure, or an atomic upsert
failure), the prior store state is untouched; if it succeeds, the store
holds exactly the full replace-or-insert of the document. -/
theorem C8_upsert_atomic (cfg : Config) (env : Env) (st : Store) (d t : String)
    (hat : env.upsertAtomic) (hcl : env.upsertClean) :
    (∀ e, (on_tools_call cfg env st "rag_upsert"
        [("doc_id", .jstr d), ("text", .jstr t)]).2.2 = .error e →
      (on_tools_call cfg env st "rag_upsert"
        [("doc_id", .jstr d), ("text", .jstr t)]).1 = st) ∧
    (∀ u, (on_tools_call cfg env st "rag_upsert"
        [("doc_id", .jstr d), ("text", .jstr t)]).2.2 = .ok u →
      ∃ v, env.embed t = .ok v ∧
        (on_tools_call cfg env st "rag_upsert"
          [("doc_id", .jstr d), ("text", .jstr t)]).1
          = storeUpsert st ⟨d, v, [("text", .jstr t)]⟩) := by
  constructor
  · intro e hv
    cases he : env.embed t with
    | error e' => simp [on_tools_call, getStrKey, List.lookup, he]
    | ok v =>
        rcases hu : env.upsertOp st ⟨d, v, [("text", .jstr t)]⟩ with ⟨st', e?⟩
        cases e? with
        | none => simp [on_tools_call, getStrKey, List.lookup, he, hu] at hv
        | some e'' =>
            have h := hat st ⟨d, v, [("text", .jstr t)]⟩ e'' (by rw [hu])
            rw [hu] at h
            simp [on_tools_call, getStrKey, List.lookup, he, hu, h]
  · intro u hv
    cases he : env.embed t with
    | error e' => simp [on_tools_call, getStrKey, List.lookup, he] at hv
    | ok v =>
        refine ⟨v, rfl, ?_⟩
        rcases hu : env.upsertOp st ⟨d, v, [("text", .jstr t)]⟩ with ⟨st', e?⟩
        cases e? with
        | some e'' => simp [on_tools_call, getStrKey, List.lookup, he, hu] at hv
        | none =>
            have h := hcl st ⟨d, v, [("text", .jstr t)]⟩ (by rw [hu])
            rw [hu] at h
            simp [on_tools_call, getStrKey, List.lookup, he, hu, h]

/-- Witness for C8. -/
theorem C8_witness :
    (on_tools_call cfg0 envEmbedFail [] "rag_upsert"
        [("doc_id", .jstr "d1"), ("text", .jstr "t")]).1 = ([] : Store) :=
  (C8_upsert_atomic cfg0 envEmbedFail [] "d1" "t"
      (fun _ _ _ h => Option.noConfusion h)
      (fun _ _ _ => rfl)).1
    (.embedError "boom") rfl

/-- C9 (counterexample): a `rag_upsert` call that supplies a `metadata`
object stores a payload holding only the text — the metadata is dropped —
and the registry's `rag_upsert` schema declares only `doc_id` and `text`. -/
theorem C9_counterexample :
    (on_tools_call cfg0 envGood [] "rag_upsert"
        [("doc_id", .jstr "d1"), ("text", .jstr "t"),
         ("metadata", .jobj [("author", .jstr "a")])]).1
      = [⟨"d1", [1], [("text", .jstr "t")]⟩] ∧
    List.lookup "metadata" [("text", JVal.jstr "t")] = none ∧
    ((on_tools_list.filter (fun x => x.name == "rag_upsert")).map
        ToolDescriptor.properties) = [[("doc_id", "string"), ("text", "string")]] :=
  ⟨rfl, rfl, rfl⟩

/-- C9 (amended): the store tool accepts only `doc_id` and `text`; any
further argument (such as `metadata`) is ignored, and the persisted payload
contains exactly the text under the `text` key. -/
theorem C9_metadata_ignored (cfg : Config) (env : Env) (st : Store)
    (d t : String) (extra : List (String × JVal)) (v : List ℚ)
    (hup : env.upsertNormal) (he : env.embed t = .ok v) :
    (on_tools_call cfg env st "rag_upsert"
        (("doc_id", .jstr d) :: ("text", .jstr t) :: extra)).1
      = storeUpsert st ⟨d, v, [("text", .jstr t)]⟩ ∧
    ((on_tools_list.filter (fun x => x.name == "rag_upsert")).map
        ToolDescriptor.properties) = [[("doc_id", "string"), ("text", "string")]] := by
  have hup' := hup st ⟨d, v, [("text", .jstr t)]⟩
  exact ⟨by simp [on_tools_call, getStrKey, List.lookup, he, hup'], rfl⟩

/-- Witness for C9. -/
theorem C9_witness :
    (on_tools_call cfg0 envGood [] "rag_upsert"
        (("doc_id", .jstr "d1") :: ("text", .jstr "t")
          :: [("metadata", .jobj [("author", .jstr "a")])])).1
      = storeUpsert [] ⟨"d1", [1], [("text", .jstr "t")]⟩ ∧
    ((on_tools_list.filter (fun x => x.name == "rag_upsert")).map
        ToolDescriptor.properties) = [[("doc_id", "string"), ("text", "string")]] :=
  C9_metadata_ignored cfg0 envGood [] "d1" "t"
    [("metadata", .jobj [("author", .jstr "a")])] [1]
    (fun _ _ => rfl) rfl

/-- C10 (confirmed): a hit whose payload lacks the `text` key is rendered
with an empty-string text (`payload.get("text", "")`), and building the
results list is total: whenever the embedding and the store search return,
the handler returns the results object, never an error, whatever the
payloads contain. -/
theorem C10_missing_text_defaults (cfg : Config) (env : Env) (st : Store)
    (q : String) (v : List ℚ) (hits : List Hit) (h : Hit)
    (he : env.embed q = .ok v) (hs : env.searchOp st v 5 = .ok hits)
    (hmt : h.payload.lookup "text" = none) :
    hitToResult h = .jobj [("score", .jnum h.score), ("text", .jstr "")] ∧
    (on_tools_call cfg env st "rag_search" [("query", .jstr q)]).2.2
      = .ok (.jobj [("results", .jarr (hits.map hitToResult))]) := by
  constructor
  · simp [hitToResult, dictGetD, hmt]
  · simp [on_tools_call, getStrKey, List.lookup, he, hs]

/-- Witness for C10. -/
theorem C10_witness :
    hitToResult ⟨"x", 1, [("lang", .jstr "en")]⟩
      = .jobj [("score", .jnum 1), ("text", .jstr "")] ∧
    (on_tools_call cfg0 envGood [⟨"x", [1], [("lang", .jstr "en")]⟩]
        "rag_search" [("query", .jstr "q")]).2.2
      = .ok (.jobj [("results", .jarr
          ((storeSearch dotSim [⟨"x", [1], [("lang", .jstr "en")]⟩] [1] 5).map
            hitToResult))]) :=
  C10_missing_text_defaults cfg0 envGood [⟨"x", [1], [("lang", .jstr "en")]⟩]
    "q" [1] (storeSearch dotSim [⟨"x", [1], [("lang", .jstr "en")]⟩] [1] 5)
    ⟨"x", 1, [("lang", .jstr "en")]⟩ rfl rfl rfl

end MCPQ
